import Mathlib

set_option linter.unusedVariables false
set_option linter.unnecessarySimpa false

/-!
# Verification of the Clack input library (gamepad binding and preferred-input tracking)

Shallow embedding of the TypeScript (roblox-ts) sources `src/gamepad.ts` and
`src/prefer.ts`.  Numbers (Lua doubles) are modelled as rationals, `undefined`/`nil`
as `Option.none`, gamepad slots (`Enum.UserInputType.GamepadN`) and key codes
(`Enum.KeyCode`) by their numeric `Value` as naturals.
-/

namespace Clack

/-! ## Lua / Roblox builtin primitives used by the sources -/

/-- Lua `math.sign`: 1 for positive, -1 for negative, 0 for zero. -/
def mathSign (v : ℚ) : ℚ :=
  if v > 0 then 1 else if v < 0 then -1 else 0

/-- Lua `math.clamp(v, lo, hi)`. -/
def mathClamp (v lo hi : ℚ) : ℚ :=
  if v < lo then lo else if v > hi then hi else v

/-- Lua `string.sub(s, 1, j)` (the sources only use `sub` with start index 1):
the first `j` characters of `s`. -/
def luaSub (s : String) (j : ℕ) : String :=
  ⟨s.data.take j⟩

/-! ## `Clack.applyDeadzone` (gamepad.ts lines 74-80)

```ts
export function applyDeadzone(value: number, threshold: number): number {
    const absValue = math.abs(value);
    if (absValue < threshold) {
        return 0;
    }
    return ((absValue - threshold) / (1 - threshold)) * math.sign(value);
}
```
-/

def applyDeadzone (value threshold : ℚ) : ℚ :=
  let absValue := |value|
  if absValue < threshold then 0
  else ((absValue - threshold) / (1 - threshold)) * mathSign value

/-! ## `getActiveGamepad` (gamepad.ts lines 5-25)

The environment queries of `UserInputService` used by the function: the list of
navigation gamepads, the list of connected gamepads, and the per-slot
connectivity query.  The `forEach` loops mutating the local `activeGamepad`
are rendered as left folds over the same accumulator.
-/

structure InputEnv where
  navGamepads : List ℕ := []
  connectedGamepads : List ℕ := []
  gamepadConnected : ℕ → Bool := fun _ => false
  gamepadButtonDown : ℕ → ℕ → Bool := fun _ _ => false
  gamepadState : ℕ → List (ℕ × ℚ × ℚ × ℚ) := fun _ => []
  vibrationSupported : ℕ → Bool := fun _ => false
  motorSupported : ℕ → ℕ → Bool := fun _ _ => false

/-- Body of the two `forEach` loops in `getActiveGamepad`: keep the current
candidate unless the visited slot has a strictly smaller `Value`. -/
def pickLower (acc : Option ℕ) (gp : ℕ) : Option ℕ :=
  match acc with
  | none => some gp
  | some a => if gp < a then some gp else some a

def getActiveGamepad (env : InputEnv) : Option ℕ :=
  let active :=
    if env.navGamepads.length > 1 then
      env.navGamepads.foldl pickLower none
    else
      env.connectedGamepads.foldl pickLower none
  match active with
  | some a => if env.gamepadConnected a then some a else none
  | none => none

/-! ## The `Gamepad` class (gamepad.ts lines 87-369)

Modelled fields: `gamepad` (the active slot), `state` (the key-code input map),
`setMotorIds` (the per-motor command-epoch map, `Map<Enum.VibrationMotor, number>`,
so lookups yield `Option ℤ`), and `defaultDeadzone`.  `Enum.VibrationMotor`
items are modelled by their numeric `Value` (ℕ); an `InputObject` by the pair
of its key code and its `Position` vector.  The `Trove`/`gamepadTrove` fields
are resource bookkeeping (event connections and pending pulse threads); cleaning
them does not change any of the modelled fields or emit any of the three
lifecycle signals, so they carry no content for the claims below.
-/

/-- An `InputObject`: its `KeyCode` value and `Position` (x, y, z). -/
structure InputObject where
  keyCode : ℕ
  posX : ℚ
  posY : ℚ
  posZ : ℚ
deriving DecidableEq, Repr

structure GamepadInst where
  gamepad : Option ℕ
  state : ℕ → Option InputObject
  setMotorIds : ℕ → Option ℤ
  defaultDeadzone : ℚ

/-- The motors set up by `setupMotors` (gamepad.ts lines 225-227):
`Enum.VibrationMotor.GetEnumItems()`, by value
(Large, Small, LeftTrigger, RightTrigger, LeftHand, RightHand). -/
def vibrationMotorItems : List ℕ := [0, 1, 2, 3, 4, 5]

/-- State of a freshly constructed `Gamepad` before/without any active slot:
the constructor runs `setupGamepad` (which leaves `gamepad` unset when nothing
is connected) and `setupMotors` (every motor's epoch entry set to 0). -/
def newGamepad : GamepadInst :=
  { gamepad := none
    state := fun _ => none
    setMotorIds := fun m => if m ∈ vibrationMotorItems then some 0 else none
    defaultDeadzone := 1/20 }

/-- Signals relevant to the active-gamepad lifecycle. -/
inductive Sig where
  | connected
  | disconnected
  | gamepadChanged (gamepad : Option ℕ)
deriving DecidableEq, Repr

/-- Model of `UserInputService.GetGamepadState(gamepad).forEach((input) => state.set(...))`:
later entries overwrite earlier ones. -/
def buildState (inputs : List (ℕ × ℚ × ℚ × ℚ)) : ℕ → Option InputObject :=
  inputs.foldl
    (fun m input => fun k =>
      if k = input.1 then some ⟨input.1, input.2.1, input.2.2.1, input.2.2.2⟩ else m k)
    (fun _ => none)

/-- Function `setupActiveGamepad` (gamepad.ts lines 156-189): returns the updated
instance together with the list of lifecycle signals fired, in order. -/
def setupActiveGamepad (env : InputEnv) (g : GamepadInst) (gamepad : Option ℕ) :
    GamepadInst × List Sig :=
  let lastGamepad := g.gamepad
  if gamepad = lastGamepad then (g, [])
  else
    match gamepad with
    | none =>
        ({ g with gamepad := none, state := fun _ => none },
         [Sig.disconnected, Sig.gamepadChanged none])
    | some gp =>
        ({ g with gamepad := some gp, state := buildState (env.gamepadState gp) },
         (if lastGamepad = none then [Sig.connected] else []) ++
           [Sig.gamepadChanged (some gp)])

/-- Function `checkToSetupActive` (gamepad.ts lines 213-218), the handler run on every
`GamepadConnected`/`GamepadDisconnected` notification in dynamic mode. -/
def checkToSetupActive (env : InputEnv) (g : GamepadInst) : GamepadInst × List Sig :=
  let active := getActiveGamepad env
  if active ≠ g.gamepad then setupActiveGamepad env g active else (g, [])

/-! ### State queries (gamepad.ts lines 229-344) -/

def isVibrationSupported (env : InputEnv) (g : GamepadInst) : Bool :=
  match g.gamepad with
  | some gp => env.vibrationSupported gp
  | none => false

def getThumbstick (g : GamepadInst) (thumbstick : ℕ) (deadzoneThreshold : Option ℚ) :
    ℚ × ℚ :=
  let pos := g.state thumbstick
  let posX := (pos.map InputObject.posX).getD 0
  let posY := (pos.map InputObject.posY).getD 0
  let deadzone := deadzoneThreshold.getD g.defaultDeadzone
  (applyDeadzone posX deadzone, applyDeadzone posY deadzone)

def getTrigger (g : GamepadInst) (trigger : ℕ) (deadzoneThreshold : Option ℚ) : ℚ :=
  applyDeadzone (((g.state trigger).map InputObject.posZ).getD 0)
    (deadzoneThreshold.getD g.defaultDeadzone)

def isButtonDown (env : InputEnv) (g : GamepadInst) (button : ℕ) : Bool :=
  match g.gamepad with
  | some gp => env.gamepadButtonDown gp button
  | none => false

def isMotorSupported (env : InputEnv) (g : GamepadInst) (motor : ℕ) : Bool :=
  match g.gamepad with
  | some gp => env.motorSupported gp motor
  | none => false

def isConnected (env : InputEnv) (g : GamepadInst) : Bool :=
  match g.gamepad with
  | some gp => env.gamepadConnected gp
  | none => false

def getGamepadType (g : GamepadInst) : Option ℕ :=
  g.gamepad

/-! ### Motor commands (gamepad.ts lines 287-328) -/

/-- An issued `HapticService.SetMotor(gamepad, motor, intensity)` command. -/
structure MotorCmd where
  slot : ℕ
  motor : ℕ
  intensity : ℚ
deriving DecidableEq, Repr

/-- Result of `setMotor`: the updated instance, the TS return value
(`some (-1)` for the early `return -1`, `none` for the implicit `undefined`
return of the success path), and the haptic commands issued. -/
structure SetMotorResult where
  inst : GamepadInst
  ret : Option ℤ
  cmds : List MotorCmd

/-- Function `setMotor` (gamepad.ts lines 287-291):
```ts
if (!this.gamepad) return -1;
this.setMotorIds.set(motor, this.setMotorIds.get(motor) ?? 0 + 1);
HapticService.SetMotor(this.gamepad, motor, math.clamp(intensity, 0, 1));
```
Note the faithful rendering of the JS precedence `a ?? b + c ≡ a ?? (b + c)`,
and that the success path returns `undefined` (there is no `return` statement). -/
def setMotor (g : GamepadInst) (motor : ℕ) (intensity : ℚ) : SetMotorResult :=
  match g.gamepad with
  | none => { inst := g, ret := some (-1), cmds := [] }
  | some gp =>
      { inst :=
          { g with setMotorIds := fun m =>
              if m = motor then some ((g.setMotorIds motor).getD (0 + 1))
              else g.setMotorIds m }
        ret := none
        cmds := [⟨gp, motor, mathClamp intensity 0 1⟩] }

/-- Function `stopMotor` (gamepad.ts lines 312-314): `this.setMotor(motor, 0)`. -/
def stopMotor (g : GamepadInst) (motor : ℕ) : SetMotorResult :=
  setMotor g motor 0

/-- Result of `pulseMotor`: the updated instance, the haptic commands issued
immediately, and the deferred action scheduled via `task.delay(duration, ...)`,
which runs against whatever the instance state is `duration` seconds later. -/
structure PulseResult where
  inst : GamepadInst
  cmds : List MotorCmd
  deferredRun : GamepadInst → GamepadInst × List MotorCmd

/-- Function `pulseMotor` (gamepad.ts lines 299-306):
```ts
const id = this.setMotor(motor, intensity);
const thread = task.delay(duration, () => {
    if (this.setMotorIds.get(motor) !== id) return;
    this.stopMotor(motor);
});
```
-/
def pulseMotor (g : GamepadInst) (motor : ℕ) (intensity : ℚ) : PulseResult :=
  let r := setMotor g motor intensity
  { inst := r.inst
    cmds := r.cmds
    deferredRun := fun gNow =>
      if gNow.setMotorIds motor ≠ r.ret then (gNow, [])
      else
        let s := stopMotor gNow motor
        (s.inst, s.cmds) }

/-! ## The `Prefer` class (prefer.ts)

`Clack.InputType` (types.ts) and the classification routine
`listenForInputChanges` (prefer.ts lines 73-115).  An `Enum.UserInputType`
value is identified by its `Name` string (the enum items are singletons with
pairwise distinct names, so `inputType === Enum.UserInputType.Touch` is name
equality, and `inputType.Name.sub(1, 5)` is `luaSub · 5`).  The host-capability
queries used by `determineInitialPreferred` form a `PreferEnv`.
-/

inductive InputType where
  | mouseKeyboard
  | touch
  | gamepad
deriving DecidableEq, Repr

structure PreferEnv where
  tenFootInterface : Bool := false
  keyboardEnabled : Bool := false
  mouseEnabled : Bool := false
  touchEnabled : Bool := false
  gamepadEnabled : Bool := false

/-- Function `determineInitialPreferred` (prefer.ts lines 80-98). -/
def determineInitialPreferred (env : PreferEnv) : InputType :=
  if env.tenFootInterface then InputType.gamepad
  else
    if env.keyboardEnabled && env.mouseEnabled then InputType.mouseKeyboard
    else if env.touchEnabled then InputType.touch
    else if env.gamepadEnabled then InputType.gamepad
    else InputType.mouseKeyboard

/-- Function `determinePreferred` (prefer.ts lines 100-111), returning the value of
`currentPreferredInputType` after the call (`setPreferred` stores the new
modality; when no branch fires, the current one is kept). -/
def determinePreferred (env : PreferEnv) (inputTypeName : String)
    (cur : Option InputType) : Option InputType :=
  if inputTypeName = "Touch" then some InputType.touch
  else if inputTypeName = "Keyboard" ∨ luaSub inputTypeName 5 = "Mouse" then
    some InputType.mouseKeyboard
  else if luaSub inputTypeName 7 = "Gamepad" then some InputType.gamepad
  else if cur = none then some (determineInitialPreferred env)
  else cur

/-- The `Prefer` constructor (prefer.ts lines 16-18, 113): the first
classification runs synchronously on the engine's current last input type,
starting from the unset pre-initial state. -/
def preferConstruct (env : PreferEnv) (lastInputTypeName : String) : Option InputType :=
  determinePreferred env lastInputTypeName none

/-! ## Observer fan-out (prefer.ts lines 62-78)

Observers are identified by naturals.  `unorderedRemove` is the roblox-ts
swap-remove (`t[index] = t[#t]; t[#t] = nil`); `unsubscribe` is the closure
returned by `observePreferredInput` (`indexOf` then `unorderedRemove` when
found).  `setPreferred`'s fan-out `observers.forEach((o) => task.spawn(o, p))`
runs each callback synchronously (`task.spawn` resumes immediately), compiled
to a Lua `ipairs`-style loop over the live array: it visits ascending indices
while they are in range of the *current* array.  `fanout` takes the set of
observers whose callback synchronously unsubscribes itself during this round
and returns the array after the round together with the list of observers the
round delivered to, in order. -/

def unorderedRemove (l : List ℕ) (i : ℕ) : List ℕ :=
  match l.getLast? with
  | none => l
  | some last => (l.set i last).dropLast

def unsubscribe (l : List ℕ) (x : ℕ) : List ℕ :=
  let i := l.indexOf x
  if i < l.length then unorderedRemove l i else l

def fanoutAux (selfUnsub : ℕ → Bool) : ℕ → ℕ → List ℕ → List ℕ × List ℕ
  | 0, _, l => (l, [])
  | fuel + 1, k, l =>
    if k < l.length then
      let obs := l.getD k 0
      let l1 := if selfUnsub obs then unsubscribe l obs else l
      let r := fanoutAux selfUnsub fuel (k + 1) l1
      (r.1, obs :: r.2)
    else (l, [])

def fanout (selfUnsub : ℕ → Bool) (l : List ℕ) : List ℕ × List ℕ :=
  fanoutAux selfUnsub l.length 0 l

end Clack

namespace Clack

/-! ## Theorems -/

/-! ### Active-slot selection (C3, C4) -/

theorem pickLower_some (a b : ℕ) : pickLower (some a) b = some (min a b) := by
  unfold pickLower
  by_cases h : b < a
  · simp [h, min_eq_right (Nat.le_of_lt h)]
  · simp [h, min_eq_left (Nat.le_of_not_lt h)]

theorem foldl_pickLower_some (l : List ℕ) (a : ℕ) :
    l.foldl pickLower (some a) = some (l.foldl min a) := by
  induction l generalizing a with
  | nil => rfl
  | cons b l ih => simp [List.foldl_cons, pickLower_some, ih]

theorem foldl_pickLower (l : List ℕ) : l.foldl pickLower none = l.min? := by
  cases l with
  | nil => rfl
  | cons a l => exact foldl_pickLower_some l a

/-- The claim's description of the recomputation, written with the library
minimum: the lowest-ordered slot among the navigation-capable slots when more
than one navigation-capable slot exists, otherwise the lowest-ordered slot
among all connected slots; unset if the chosen slot is not reported
connected. -/
def activeSlotSpec (env : InputEnv) : Option ℕ :=
  let chosen :=
    if env.navGamepads.length > 1 then env.navGamepads.min?
    else env.connectedGamepads.min?
  match chosen with
  | some c => if env.gamepadConnected c then some c else none
  | none => none

/-- C4: in dynamic mode, on every connect/disconnect notification the primary
slot is recomputed as the lowest-ordered navigation-capable slot when more than
one navigation-capable slot exists, otherwise the lowest-ordered connected
slot, and the result is unset if the chosen slot is not reported connected. -/
theorem getActiveGamepad_eq_activeSlotSpec (env : InputEnv) :
    getActiveGamepad env = activeSlotSpec env := by
  unfold getActiveGamepad activeSlotSpec
  by_cases h : env.navGamepads.length > 1 <;>
    simp [h, foldl_pickLower]

/-- Device state of the C3 scenario: slots 1 (= A) and 2 (= B) connected,
only B navigation-capable. -/
def envOnlyHigherNav : InputEnv :=
  { navGamepads := [2]
    connectedGamepads := [1, 2]
    gamepadConnected := fun s => s == 1 || s == 2 }

/-- C3 counterexample: with exactly two connected slots A = 1 < B = 2 and only
B navigation-capable, the recomputed active slot is A, not B as the claim
states (the navigation branch requires *more than one* navigation-capable
slot, so the fallback over all connected slots applies). -/
theorem getActiveGamepad_onlyHigherNav_ne :
    getActiveGamepad envOnlyHigherNav = some 1 ∧
      envOnlyHigherNav.connectedGamepads = [1, 2] ∧
      envOnlyHigherNav.navGamepads = [2] ∧
      getActiveGamepad envOnlyHigherNav ≠ some 2 := by
  decide

/-- C3 (amended): in dynamic mode, for every device state with exactly two
connected gamepad slots A and B with A lower-ordered than B, where only B is
reported navigation-capable, the recomputed active slot is A (only one
navigation-capable slot exists, so the fallback over all connected slots
applies); and if A is additionally reported navigation-capable (both A and B
navigation-capable), the recomputed active slot is also A. -/
theorem getActiveGamepad_twoSlots (A B : ℕ) (hAB : A < B)
    (connected : ℕ → Bool) (hA : connected A = true) (hB : connected B = true) :
    getActiveGamepad
        { navGamepads := [B], connectedGamepads := [A, B],
          gamepadConnected := connected } = some A ∧
      getActiveGamepad
        { navGamepads := [A, B], connectedGamepads := [A, B],
          gamepadConnected := connected } = some A := by
  constructor <;>
    simp [getActiveGamepad, pickLower, Nat.not_lt.2 (Nat.le_of_lt hAB),
      Nat.le_of_lt hAB, hA, hAB]

/-- Witness for the amended C3 at A = 1, B = 2. -/
theorem getActiveGamepad_twoSlots_witness :
    getActiveGamepad
        { navGamepads := [2], connectedGamepads := [1, 2],
          gamepadConnected := fun s => s == 1 || s == 2 } = some 1 :=
  (getActiveGamepad_twoSlots 1 2 (by decide) (fun s => s == 1 || s == 2)
    (by decide) (by decide)).1

/-! ### Deadzone remap (C6) -/

theorem applyDeadzone_zero_value (dz : ℚ) : applyDeadzone 0 dz = 0 := by
  simp only [applyDeadzone, mathSign]
  norm_num

theorem abs_applyDeadzone (t v : ℚ) (ht0 : 0 ≤ t) (ht1 : t < 1) (hv : t ≤ |v|) :
    |applyDeadzone v t| = (|v| - t) / (1 - t) := by
  unfold applyDeadzone
  rw [if_neg (not_lt.2 hv)]
  have hpos : (0 : ℚ) < 1 - t := by linarith
  have hnn : 0 ≤ (|v| - t) / (1 - t) := div_nonneg (by linarith) (le_of_lt hpos)
  rcases eq_or_ne v 0 with rfl | hv0
  · have ht : t = 0 := le_antisymm (by simpa using hv) ht0
    simp [mathSign, ht]
  · have hsign : |mathSign v| = 1 := by
      rcases lt_or_gt_of_ne hv0 with h | h
      · simp [mathSign, h, asymm h]
      · simp [mathSign, h]
    rw [abs_mul, hsign, mul_one, abs_of_nonneg hnn]

/-- C6: for thresholds `t ∈ [0, 1)` and raw values `v ∈ [-1, 1]`,
`applyDeadzone v t` is 0 when `|v| < t` and `sign v * (|v| - t) / (1 - t)`
otherwise; `|applyDeadzone v t|` is monotonically non-decreasing in `|v|` on
`|v| ≥ t`; `applyDeadzone v t = sign v` exactly at `|v| = 1`; and
`getThumbstick` applies the remap independently to each of the two axis
components. -/
theorem applyDeadzone_spec (t v : ℚ) (ht0 : 0 ≤ t) (ht1 : t < 1)
    (hv1 : -1 ≤ v) (hv2 : v ≤ 1) :
    (|v| < t → applyDeadzone v t = 0) ∧
    (t ≤ |v| → applyDeadzone v t = mathSign v * ((|v| - t) / (1 - t))) ∧
    (∀ w, t ≤ |v| → |v| ≤ |w| → |w| ≤ 1 →
      |applyDeadzone v t| ≤ |applyDeadzone w t|) ∧
    (|v| = 1 → applyDeadzone v t = mathSign v) ∧
    (∀ (g : GamepadInst) (th : ℕ) (dzo : Option ℚ),
      getThumbstick g th dzo =
        (applyDeadzone (((g.state th).map InputObject.posX).getD 0)
            (dzo.getD g.defaultDeadzone),
          applyDeadzone (((g.state th).map InputObject.posY).getD 0)
            (dzo.getD g.defaultDeadzone))) := by
  have hpos : (0 : ℚ) < 1 - t := by linarith
  refine ⟨fun h => ?_, fun h => ?_, fun w h1 h2 h3 => ?_, fun h => ?_,
    fun g th dzo => rfl⟩
  · unfold applyDeadzone
    rw [if_pos h]
  · unfold applyDeadzone
    rw [if_neg (not_lt.2 h)]
    ring
  · rw [abs_applyDeadzone t v ht0 ht1 h1, abs_applyDeadzone t w ht0 ht1 (h1.trans h2)]
    gcongr
  · have hcond : ¬(|v| < t) := by
      rw [h]; exact not_lt.2 (le_of_lt ht1)
    unfold applyDeadzone
    rw [if_neg hcond, h, div_self (ne_of_gt hpos), one_mul]

/-- Witness for C6 at `t = 1/2`, `v = 1`. -/
theorem applyDeadzone_spec_witness : applyDeadzone (1 : ℚ) (1/2) = 1 := by
  have h := (applyDeadzone_spec (1/2) 1 (by norm_num) (by norm_num) (by norm_num)
    (by norm_num)).2.2.2.1 (by norm_num)
  rw [h]
  norm_num [mathSign]

/-! ### Rebind signal order (C5) -/

/-- C5: on a rebind with a new slot different from the current one, leaving the
unset state fires `connected` before `gamepadChanged`; entering the unset state
fires `disconnected` before `gamepadChanged`; a transition between two set
slots fires only `gamepadChanged`; and no signal fires when the new slot
equals the current one. -/
theorem setupActiveGamepad_signals (env : InputEnv) (g : GamepadInst) (gp : Option ℕ) :
    (gp = g.gamepad → (setupActiveGamepad env g gp).2 = []) ∧
    (∀ s, g.gamepad = none → gp = some s →
      (setupActiveGamepad env g gp).2 = [Sig.connected, Sig.gamepadChanged (some s)]) ∧
    (∀ s, g.gamepad = some s → gp = none →
      (setupActiveGamepad env g gp).2 = [Sig.disconnected, Sig.gamepadChanged none]) ∧
    (∀ a b, g.gamepad = some a → gp = some b → a ≠ b →
      (setupActiveGamepad env g gp).2 = [Sig.gamepadChanged (some b)]) := by
  refine ⟨fun h => ?_, fun s h1 h2 => ?_, fun s h1 h2 => ?_, fun a b h1 h2 hne => ?_⟩
  · simp [setupActiveGamepad, h]
  · subst h2; simp [setupActiveGamepad, h1]
  · subst h2; simp [setupActiveGamepad, h1]
  · subst h2; simp [setupActiveGamepad, h1, Ne.symm hne]

/-- Witness for C5: rebinding from the unset state to slot 1 fires
`connected` then `gamepadChanged`. -/
theorem setupActiveGamepad_signals_witness :
    (setupActiveGamepad {} newGamepad (some 1)).2 =
      [Sig.connected, Sig.gamepadChanged (some 1)] :=
  (setupActiveGamepad_signals {} newGamepad (some 1)).2.1 1 rfl rfl

/-! ### Unset-gamepad sentinels (C8) -/

/-- Helper: the "gamepad unset implies empty input state" invariant holds at
construction and is preserved by every rebind, so the hypotheses of the
sentinel theorem below describe every reachable unset instance. -/
theorem setupActiveGamepad_state_inv (env : InputEnv) (g : GamepadInst) (gp : Option ℕ)
    (h : g.gamepad = none → ∀ k, g.state k = none) :
    ((setupActiveGamepad env g gp).1).gamepad = none →
      ∀ k, ((setupActiveGamepad env g gp).1).state k = none := by
  unfold setupActiveGamepad
  by_cases heq : gp = g.gamepad
  · simpa [heq] using h
  · cases gp with
    | none => simp [heq]
    | some s => simp [heq]

/-- C8: every state query on a `Gamepad` whose active gamepad is unset is
absorbed and returns a neutral sentinel (zero vector, 0, `false`, unset), and
`setMotor` issues no haptic command and returns the sentinel `-1`; with a set
active gamepad, `setMotor` clamps the intensity into `[0, 1]` before issuing
it. -/
theorem unsetGamepad_sentinels (env : InputEnv) (g : GamepadInst)
    (hg : g.gamepad = none) (hstate : ∀ k, g.state k = none) :
    (∀ th dzo, getThumbstick g th dzo = (0, 0)) ∧
    (∀ tr dzo, getTrigger g tr dzo = 0) ∧
    (∀ b, isButtonDown env g b = false) ∧
    isConnected env g = false ∧
    isVibrationSupported env g = false ∧
    (∀ m, isMotorSupported env g m = false) ∧
    getGamepadType g = none ∧
    (∀ m i, setMotor g m i = { inst := g, ret := some (-1), cmds := [] }) ∧
    (∀ (g' : GamepadInst) (s m : ℕ) (i : ℚ), g'.gamepad = some s →
      (setMotor g' m i).cmds = [⟨s, m, mathClamp i 0 1⟩] ∧
      0 ≤ mathClamp i 0 1 ∧ mathClamp i 0 1 ≤ 1) := by
  refine ⟨fun th dzo => ?_, fun tr dzo => ?_, fun b => ?_, ?_, ?_, fun m => ?_, ?_,
    fun m i => ?_, fun g' s m i hs => ⟨?_, ?_, ?_⟩⟩
  · simp [getThumbstick, hstate, applyDeadzone_zero_value]
  · simp [getTrigger, hstate, applyDeadzone_zero_value]
  · simp [isButtonDown, hg]
  · simp [isConnected, hg]
  · simp [isVibrationSupported, hg]
  · simp [isMotorSupported, hg]
  · simp [getGamepadType, hg]
  · simp [setMotor, hg]
  · simp [setMotor, hs]
  · unfold mathClamp; split_ifs <;> linarith
  · unfold mathClamp; split_ifs <;> linarith

/-- Witness for C8 at the freshly constructed (unset) instance. -/
theorem unsetGamepad_sentinels_witness :
    getTrigger newGamepad 0 none = 0 ∧
      (setMotor newGamepad 0 (1/2)).ret = some (-1) := by
  have h := unsetGamepad_sentinels {} newGamepad rfl (fun _ => rfl)
  refine ⟨h.2.1 0 none, ?_⟩
  rw [h.2.2.2.2.2.2.2.1 0 (1/2)]

/-! ### Motor command epoch and pulse completion (C1, C2)

Here the code diverges from the specification.  Two slips in `setMotor`
(gamepad.ts lines 287-291) interact:

* `this.setMotorIds.set(motor, this.setMotorIds.get(motor) ?? 0 + 1)` binds as
  `get(motor) ?? (0 + 1)` (JS `+` binds tighter than `??`), so for any motor
  already in the map (all of them, after `setupMotors`) the stored epoch is
  rewritten to its old value and never increments;
* the success path of `setMotor` has no `return` statement, so it returns
  `undefined`, not the epoch id.

Consequently `pulseMotor`'s deferred completion compares the live epoch
(`some 0`) against the captured return (`none`/undefined); they never agree,
so the scheduled "turn off after duration" action never issues the stop
command, even when no intervening command for the motor was made. -/

def envG1 : InputEnv :=
  { connectedGamepads := [1]
    gamepadConnected := fun s => s == 1 }

/-- A `Gamepad` instance after slot 1 connected (dynamic rebind to slot 1). -/
def gConnected : GamepadInst :=
  (setupActiveGamepad envG1 newGamepad (some 1)).1

/-- C2 (code bug witness): with slot 1 active, an explicit `setMotor` call
leaves the motor's command epoch at 0 instead of incrementing it, and returns
`undefined` (`none`) rather than the epoch id. -/
theorem setMotor_epoch_never_increments :
    gConnected.gamepad = some 1 ∧
    gConnected.setMotorIds 0 = some 0 ∧
    ((setMotor gConnected 0 (1/2)).inst).setMotorIds 0 = some 0 ∧
    (setMotor gConnected 0 (1/2)).ret = none := by
  decide

/-- C1 (code bug witness): with slot 1 active, `pulseMotor(motor 0, 1, d)`
issues the on-command with intensity 1, but its deferred completion — run with
*no* intervening command for the motor — issues no command at all: the live
epoch `some 0` never equals the captured `setMotor` return `none`, so the
motor is never set back to 0. -/
theorem pulseMotor_deferred_never_fires :
    (pulseMotor gConnected 0 1).cmds = [⟨1, 0, 1⟩] ∧
    ((pulseMotor gConnected 0 1).deferredRun (pulseMotor gConnected 0 1).inst).2 = [] := by
  decide

/-! ### Preference classification (C7, C10) -/

theorem luaSub_of_luaSub (s t : String) (j k : ℕ) (hjk : j ≤ k)
    (h : luaSub s k = t) : luaSub s j = luaSub t j := by
  unfold luaSub at *
  have hd : t.data = s.data.take k := by rw [← h]
  rw [hd, List.take_take, min_eq_left hjk]

/-- C7: the classification routine maps the `Touch` class to Touch, `Keyboard`
or any class whose name starts with "Mouse" to MouseKeyboard, any class whose
name starts with "Gamepad" to Gamepad; for any other class it falls back to
the capability heuristic only if no modality has ever been set — Gamepad on a
ten-foot interface, else MouseKeyboard if keyboard and mouse are both enabled,
else Touch if touch is enabled, else Gamepad if a gamepad is enabled, else
MouseKeyboard — and otherwise leaves the current modality unchanged. -/
theorem determinePreferred_spec (env : PreferEnv) (name : String) (cur : Option InputType) :
    (name = "Touch" → determinePreferred env name cur = some InputType.touch) ∧
    (name = "Keyboard" ∨ luaSub name 5 = "Mouse" →
      determinePreferred env name cur = some InputType.mouseKeyboard) ∧
    (luaSub name 7 = "Gamepad" →
      determinePreferred env name cur = some InputType.gamepad) ∧
    (name ≠ "Touch" → name ≠ "Keyboard" → luaSub name 5 ≠ "Mouse" →
      luaSub name 7 ≠ "Gamepad" →
      (cur ≠ none → determinePreferred env name cur = cur) ∧
      (cur = none →
        (env.tenFootInterface = true →
          determinePreferred env name cur = some InputType.gamepad) ∧
        (env.tenFootInterface = false → env.keyboardEnabled = true →
          env.mouseEnabled = true →
          determinePreferred env name cur = some InputType.mouseKeyboard) ∧
        (env.tenFootInterface = false →
          (env.keyboardEnabled && env.mouseEnabled) = false →
          env.touchEnabled = true →
          determinePreferred env name cur = some InputType.touch) ∧
        (env.tenFootInterface = false →
          (env.keyboardEnabled && env.mouseEnabled) = false →
          env.touchEnabled = false → env.gamepadEnabled = true →
          determinePreferred env name cur = some InputType.gamepad) ∧
        (env.tenFootInterface = false →
          (env.keyboardEnabled && env.mouseEnabled) = false →
          env.touchEnabled = false → env.gamepadEnabled = false →
          determinePreferred env name cur = some InputType.mouseKeyboard))) := by
  refine ⟨fun h => ?_, fun h => ?_, fun h7 => ?_, fun h1 h2 h3 h4 => ⟨fun hcur => ?_, fun hcur => ?_⟩⟩
  · subst h; rfl
  · rcases h with h | h
    · subst h; rfl
    · have hT : name ≠ "Touch" := by
        rintro rfl; exact absurd h (by decide)
      unfold determinePreferred
      rw [if_neg hT, if_pos (Or.inr h)]
  · have hT : name ≠ "Touch" := by
      rintro rfl; exact absurd h7 (by decide)
    have hK : name ≠ "Keyboard" := by
      rintro rfl; exact absurd h7 (by decide)
    have hM : luaSub name 5 ≠ "Mouse" := by
      rw [luaSub_of_luaSub name _ 5 7 (by norm_num) h7]; decide
    unfold determinePreferred
    rw [if_neg hT, if_neg (not_or.2 ⟨hK, hM⟩), if_pos h7]
  · unfold determinePreferred
    rw [if_neg h1, if_neg (not_or.2 ⟨h2, h3⟩), if_neg h4, if_neg hcur]
  · subst hcur
    unfold determinePreferred
    rw [if_neg h1, if_neg (not_or.2 ⟨h2, h3⟩), if_neg h4, if_pos rfl]
    unfold determineInitialPreferred
    refine ⟨fun htf => ?_, fun htf hkb hm => ?_, fun htf hkm ht => ?_,
      fun htf hkm ht hgp => ?_, fun htf hkm ht hgp => ?_⟩ <;>
      simp_all

/-- Witness for C7: the `Touch` device class classifies to Touch. -/
theorem determinePreferred_spec_witness :
    determinePreferred {} "Touch" none = some InputType.touch :=
  (determinePreferred_spec {} "Touch" none).1 rfl

/-- C10: the first classification, run synchronously by the `Prefer`
constructor from the unset pre-initial state, always assigns some modality,
for every host capability state and every initial device class. -/
theorem preferConstruct_isSome (env : PreferEnv) (name : String) :
    (preferConstruct env name).isSome = true := by
  unfold preferConstruct determinePreferred
  split_ifs <;> simp_all

/-! ### Observer fan-out under self-unsubscription (C9) -/

theorem mem_of_mem_unorderedRemove {y : ℕ} {l : List ℕ} {i : ℕ}
    (h : y ∈ unorderedRemove l i) : y ∈ l := by
  unfold unorderedRemove at h
  cases hl : l.getLast? with
  | none => rwa [hl] at h
  | some last =>
      rw [hl] at h
      have h1 : y ∈ l.set i last := (List.dropLast_prefix _).subset h
      rcases List.mem_or_eq_of_mem_set h1 with h2 | rfl
      · exact h2
      · exact List.mem_of_getLast?_eq_some hl

theorem mem_of_mem_unsubscribe {y x : ℕ} {l : List ℕ}
    (h : y ∈ unsubscribe l x) : y ∈ l := by
  simp only [unsubscribe] at h
  split at h
  · exact mem_of_mem_unorderedRemove h
  · exact h

/-- A fan-out over an observer array not containing `x` never delivers to `x`
and never produces an array containing `x`. -/
theorem fanoutAux_not_mem (x : ℕ) (sU : ℕ → Bool) :
    ∀ (fuel k : ℕ) (l : List ℕ), x ∉ l →
      x ∉ (fanoutAux sU fuel k l).1 ∧ x ∉ (fanoutAux sU fuel k l).2 := by
  intro fuel
  induction fuel with
  | zero => exact fun k l hx => ⟨hx, by simp [fanoutAux]⟩
  | succ n ih =>
      intro k l hx
      rw [fanoutAux]
      by_cases h : k < l.length
      · rw [if_pos h]
        have hget : l.getD k 0 = l[k] := by
          rw [List.getD_eq_getElem?_getD, List.getElem?_eq_getElem h]; rfl
        have hobs : l.getD k 0 ∈ l := hget ▸ List.getElem_mem h
        have hne : l.getD k 0 ≠ x := fun he => hx (he ▸ hobs)
        have hx1 : x ∉ (if sU (l.getD k 0) then unsubscribe l (l.getD k 0) else l) := by
          split
          · exact fun hmem => hx (mem_of_mem_unsubscribe hmem)
          · exact hx
        obtain ⟨h1, h2⟩ := ih (k + 1) _ hx1
        refine ⟨h1, ?_⟩
        simp only [List.mem_cons, not_or]
        exact ⟨fun he => hne he.symm, h2⟩
      · rw [if_neg h]
        exact ⟨hx, by simp⟩

/-- Positions strictly before `indexOf x` do not hold `x`. -/
theorem getElem_ne_of_lt_indexOf {l : List ℕ} {x k : ℕ} (hk : k < l.length)
    (hlt : k < List.indexOf x l) : l[k] ≠ x := by
  have hlt2 : k < List.findIdx (· == x) l := hlt
  have h := List.not_of_lt_findIdx hlt2
  simpa using h

/-- With no duplicates, unsubscribing `x` removes it from the array. -/
theorem not_mem_unsubscribe_self {x : ℕ} {l : List ℕ} (hnd : l.Nodup) (hx : x ∈ l) :
    x ∉ unsubscribe l x := by
  have hi : List.indexOf x l < l.length := List.indexOf_lt_length.2 hx
  have hne : l ≠ [] := List.ne_nil_of_mem hx
  have hlen : 0 < l.length := List.length_pos.2 hne
  have hlast : l.getLast? = some (l.getLast hne) := List.getLast?_eq_getLast l hne
  have hgetlast : l.getLast hne = getElem l (l.length - 1) (by omega) :=
    List.getLast_eq_getElem l hne
  have hidx : l[List.indexOf x l] = x := by
    have := List.indexOf_get (a := x) (l := l) hi
    simpa using this
  have hUR : unorderedRemove l (List.indexOf x l) =
      (l.set (List.indexOf x l) (l.getLast hne)).dropLast := by
    unfold unorderedRemove
    rw [hlast]
  have hinj : ∀ (i j : ℕ) (hi' : i < l.length) (hj' : j < l.length),
      l[i] = l[j] → i = j := by
    intro i j hi' hj' he
    have hinj2 := List.nodup_iff_injective_get.1 hnd
    have := hinj2 (show l.get ⟨i, hi'⟩ = l.get ⟨j, hj'⟩ by simpa using he)
    simpa using this
  simp only [unsubscribe]
  rw [if_pos hi, hUR]
  intro hmem
  rw [List.dropLast_eq_take] at hmem
  obtain ⟨j, hj, hjx⟩ := List.getElem_of_mem hmem
  have hjlt : j < l.length - 1 := by
    simp only [List.length_take, List.length_set] at hj
    omega
  rw [List.getElem_take] at hjx
  rw [List.getElem_set] at hjx
  split at hjx
  · -- the swapped-in last element sits at position j = indexOf x < length - 1
    rename_i hij
    rw [hgetlast] at hjx
    have : l.length - 1 = List.indexOf x l := by
      refine hinj _ _ (by omega) hi ?_
      rw [hjx, hidx]
    omega
  · -- an untouched position j ≠ indexOf x holds x, contradicting uniqueness
    rename_i hij
    have : j = List.indexOf x l := by
      refine hinj _ _ (by omega) hi ?_
      rw [hjx, hidx]
    exact hij this.symm

/-- If only `x` self-unsubscribes and the round starts at or before `x`'s
position, the array after the round does not contain `x`. -/
theorem fanoutAux_removes (x : ℕ) :
    ∀ (fuel k : ℕ) (l : List ℕ), l.Nodup → x ∈ l →
      k ≤ List.indexOf x l → List.indexOf x l < k + fuel →
      x ∉ (fanoutAux (· == x) fuel k l).1 := by
  intro fuel
  induction fuel with
  | zero =>
      intro k l _ hx hk hfuel
      omega
  | succ n ih =>
      intro k l hnd hx hk hfuel
      have hi : List.indexOf x l < l.length := List.indexOf_lt_length.2 hx
      have hklen : k < l.length := lt_of_le_of_lt hk hi
      rw [fanoutAux, if_pos hklen]
      have hget : l.getD k 0 = l[k] := by
        rw [List.getD_eq_getElem?_getD, List.getElem?_eq_getElem hklen]; rfl
      by_cases hkeq : k = List.indexOf x l
      · have hobsx : l.getD k 0 = x := by
          subst hkeq
          rw [hget]
          simpa using List.indexOf_get (a := x) (l := l) hi
        have hcond : (l.getD k 0 == x) = true := by
          rw [hobsx]; exact beq_self_eq_true x
        simp only [if_pos hcond]
        simp only [hobsx]
        exact (fanoutAux_not_mem x (· == x) n (k + 1)
          (unsubscribe l x) (not_mem_unsubscribe_self hnd hx)).1
      · have hklt : k < List.indexOf x l := lt_of_le_of_ne hk hkeq
        have hobs : l.getD k 0 ≠ x := by
          rw [hget]; exact getElem_ne_of_lt_indexOf hklen hklt
        have hcond : ¬((l.getD k 0 == x) = true) := by
          simpa using hobs
        simp only [if_neg hcond]
        exact ih (k + 1) l hnd hx (by omega) (by omega)

/-- C9 counterexample: observers `[1, 2]` registered in this order, observer 1
unsubscribing itself during its own callback of the fan-out round.  Observer 2,
registered at the start of the round, is *not* delivered the round's
notification: the swap-remove moves it into the already-visited slot 0. -/
theorem fanout_skips_swapped_observer :
    fanout (· == 1) [1, 2] = ([2], [1]) ∧ 2 ∈ [1, 2] ∧
      2 ∉ (fanout (· == 1) [1, 2]).2 := by
  decide

/-- C9 (amended): if an observer's unsubscribe function is invoked during that
observer's own callback within a fan-out round (and no other observer
unsubscribes), the observer is removed from the observer array by the end of
the round, and no later fan-out — over any array not containing it — delivers
to it or reintroduces it; delivery to the *other* observers of the same round
is however not guaranteed (see the counterexample: the swap-remove moves the
last observer into an already-visited slot). -/
theorem fanout_unsubscribed_never_again (x : ℕ) (l : List ℕ)
    (hnd : l.Nodup) (hx : x ∈ l) :
    x ∉ (fanout (· == x) l).1 ∧
      ∀ (sU : ℕ → Bool) (l' : List ℕ), x ∉ l' →
        x ∉ (fanout sU l').1 ∧ x ∉ (fanout sU l').2 := by
  constructor
  · exact fanoutAux_removes x l.length 0 l hnd hx (Nat.zero_le _)
      (by simpa using List.indexOf_lt_length.2 hx)
  · intro sU l' hx'
    exact fanoutAux_not_mem x sU l'.length 0 l' hx'

/-- Witness for the amended C9 with observers `[1, 2]`, observer 1
unsubscribing itself. -/
theorem fanout_unsubscribed_never_again_witness :
    1 ∉ (fanout (· == 1) [1, 2]).1 ∧
      1 ∉ (fanout (fun _ => false) [2, 3]).2 := by
  have h := fanout_unsubscribed_never_again 1 [1, 2] (by decide) (by decide)
  exact ⟨h.1, (h.2 (fun _ => false) [2, 3] (by decide)).2⟩

end Clack
